import Mathlib

/-!
Shallow embedding of the games-dashboard program
(`games_market_dash_Elizaveta_Zhaivoron.py`): the dataset loader
(module top level, lines 9-26) and the filter-and-aggregate callback
(lines 170-229).  Tables are lists of records; pandas boolean `.loc`
selection is list filtering; the index alignment that pandas performs
when a boolean mask built over `df` is applied to `local_df` is made
explicit by carrying each row's original index through the pipeline.
Floating-point scores are modelled as exact rationals.
-/

namespace GamesDash

/-- One row of the cleaned base table (one game). -/
structure GameRecord where
  Name : String
  Platform : String
  Genre : String
  Year_of_Release : Int
  Critic_Score : Rat
  User_Score : Rat
  Rating : String
deriving DecidableEq, Repr

/--
One row of the raw CSV before cleaning.  A `none` field is a missing
value (dropped by `dropna()`).  A score cell is either a value that
`pd.to_numeric` coerces to a number (`Sum.inl`) or a string it cannot
coerce (`Sum.inr`), in which case `pd.to_numeric(..., errors='coerce')`
yields null and the row is dropped.
-/
structure RawRecord where
  Name : Option String
  Platform : Option String
  Genre : Option String
  Year_of_Release : Option Int
  Critic_Score : Option (Sum Rat String)
  User_Score : Option (Sum Rat String)
  Rating : Option String
deriving DecidableEq, Repr

/-- `pd.to_numeric(cell, errors='coerce')`: numeric result or null. -/
def cellNumeric : Option (Sum Rat String) → Option Rat
  | some (Sum.inl q) => some q
  | _ => none

/-- Row survives `df.dropna()`: no field is missing. -/
def rowNonNull (r : RawRecord) : Bool :=
  r.Name.isSome && r.Platform.isSome && r.Genre.isSome &&
    r.Year_of_Release.isSome && r.Critic_Score.isSome &&
    r.User_Score.isSome && r.Rating.isSome

/-- Row survives the score-coercion pass (source lines 14-15):
both scores coerce to numbers. -/
def scoresNumeric (r : RawRecord) : Bool :=
  (cellNumeric r.Critic_Score).isSome && (cellNumeric r.User_Score).isSome

/-- Row survives the year-window pass (source lines 17-23). -/
def yearInWindow (r : RawRecord) : Bool :=
  match r.Year_of_Release with
  | some y => decide (2000 ≤ y) && decide (y ≤ 2022)
  | none => false

/-- Final projection to a cleaned record (source lines 11, 25-26:
year as int, scores stored as numeric columns). -/
def finalizeRow (r : RawRecord) : Option GameRecord :=
  match r.Name, r.Platform, r.Genre, r.Year_of_Release,
      cellNumeric r.Critic_Score, cellNumeric r.User_Score, r.Rating with
  | some n, some p, some g, some y, some c, some u, some rt =>
      some ⟨n, p, g, y, c, u, rt⟩
  | _, _, _, _, _, _, _ => none

/-- The loader pipeline (source lines 9-26): `dropna`, score-coercion
filter, year-window filter, numeric projection. -/
def load (raw : List RawRecord) : List GameRecord :=
  (((raw.filter rowNonNull).filter scoresNumeric).filter yearInWindow).filterMap finalizeRow

/-- The user's filter choice: platform multi-select, genre
multi-select, optional inclusive year range (the slider value). -/
structure FilterSelection where
  platforms : List String
  genres : List String
  years : Option (Int × Int)
deriving DecidableEq, Repr

/-- A pandas frame sharing `df`'s index: rows tagged with their
position in the base table. -/
def indexedFrom (i : Nat) : List GameRecord → List (Nat × GameRecord)
  | [] => []
  | r :: rs => (i, r) :: indexedFrom (i + 1) rs

/-- `df.copy()` viewed with its index. -/
def indexedBase (base : List GameRecord) : List (Nat × GameRecord) :=
  indexedFrom 0 base

/-- Source lines 172-173: `if len(platforms) != 0:
local_df = local_df.loc[local_df['Platform'].isin(platforms)]`. -/
def platformStep (platforms : List String) (t : List (Nat × GameRecord)) :
    List (Nat × GameRecord) :=
  if platforms.length = 0 then t
  else t.filter (fun p => platforms.contains p.2.Platform)

/-- Source lines 174-175: the analogous genre restriction. -/
def genreStep (genres : List String) (t : List (Nat × GameRecord)) :
    List (Nat × GameRecord) :=
  if genres.length = 0 then t
  else t.filter (fun p => genres.contains p.2.Genre)

/--
Source lines 176-183: `local_df.loc[(df['Year_of_Release'] >= years[0])
& (df['Year_of_Release'] <= years[1])]`.  The boolean mask is built
over the ORIGINAL `df`; pandas aligns it on `local_df`'s index, so a
row of `local_df` with index `i` is kept iff row `i` of the base table
has its year in range.
-/
def yearStep (base : List GameRecord) (years : Option (Int × Int))
    (t : List (Nat × GameRecord)) : List (Nat × GameRecord) :=
  match years with
  | none => t
  | some yr =>
      t.filter (fun p =>
        match base.get? p.1 with
        | some r => decide (yr.1 ≤ r.Year_of_Release) && decide (r.Year_of_Release ≤ yr.2)
        | none => false)

/-- The filtered `local_df` of the callback, index carried along. -/
def filteredIndexed (base : List GameRecord) (s : FilterSelection) :
    List (Nat × GameRecord) :=
  yearStep base s.years (genreStep s.genres (platformStep s.platforms (indexedBase base)))

/-- The rows of the filtered `local_df`. -/
def filteredSubset (base : List GameRecord) (s : FilterSelection) :
    List GameRecord :=
  (filteredIndexed base s).map Prod.snd

/-- Sum of a numeric column. -/
def ratSum (l : List Rat) : Rat := l.foldr (· + ·) 0

/-- `Series.mean()`: null (NaN) on an empty column, else sum/count. -/
def seriesMean (l : List Rat) : Option Rat :=
  if l.length = 0 then none else some (ratSum l / (l.length : Rat))

/-- Round to the nearest integer, ties to even (Python `round`). -/
def roundHalfEven (q : Rat) : Int :=
  let n := ⌊q⌋
  if q - (n : Rat) < 1 / 2 then n
  else if (1 : Rat) / 2 < q - (n : Rat) then n + 1
  else if n % 2 = 0 then n else n + 1

/-- Python `round(x, 2)`. -/
def round2 (q : Rat) : Rat := ((roundHalfEven (q * 100) : Int) : Rat) / 100

/-- `len(series.unique().tolist())`: number of distinct values. -/
def distinctCount (l : List String) : Nat := l.dedup.length

/-- Insert into a list sorted by `le`. -/
def insortBy {α : Type} (le : α → α → Bool) (x : α) : List α → List α
  | [] => [x]
  | y :: ys => if le x y then x :: y :: ys else y :: insortBy le x ys

/-- Insertion sort by `le` (model of pandas ascending key order). -/
def sortBy {α : Type} (le : α → α → Bool) : List α → List α
  | [] => []
  | x :: xs => insortBy le x (sortBy le xs)

/-- Boolean string order used for sorted group keys. -/
def strLe (a b : String) : Bool := !(decide (b < a))

/-- Frequency of the most frequent value of the column. -/
def maxFreq (l : List String) : Nat := (l.map l.count).foldr max 0

/-- `pd.Series.mode`: every value attaining the maximal frequency,
in ascending order (one value for a unique mode, several on a tie). -/
def seriesMode (l : List String) : List String :=
  sortBy strLe (l.dedup.filter (fun v => decide (l.count v = maxFreq l)))

/-- Ratings of the rows of one genre group. -/
def groupRatings (t : List GameRecord) (g : String) : List String :=
  (t.filter (fun r => r.Genre == g)).map (·.Rating)

/-- Sorted genre keys of `groupby(['Genre'])`. -/
def genreKeys (t : List GameRecord) : List String :=
  sortBy strLe (t.map (·.Genre)).dedup

/-- Source line 209:
`local_df.groupby(['Genre'])['Rating'].agg(pd.Series.mode)`. -/
def genreModeTable (t : List GameRecord) : List (String × List String) :=
  (genreKeys t).map (fun g => (g, seriesMode (groupRatings t g)))

/-- Lexicographic order on (Platform, Year) group keys. -/
def pyLe (a b : String × Int) : Bool :=
  decide (a.1 < b.1) || (a.1 == b.1 && decide (a.2 ≤ b.2))

/-- Sorted keys of `groupby(['Platform','Year_of_Release'])`. -/
def ypKeys (t : List GameRecord) : List (String × Int) :=
  sortBy pyLe (t.map (fun r => (r.Platform, r.Year_of_Release))).dedup

/-- Source line 184: group by (Platform, Year) and count rows. -/
def yearPlatformTable (t : List GameRecord) : List ((String × Int) × Nat) :=
  (ypKeys t).map (fun k =>
    (k, (t.filter (fun r => r.Platform == k.1 && r.Year_of_Release == k.2)).length))

/-- Source lines 197-208: the per-row scatter projection. -/
def scatterTable (t : List GameRecord) : List (Rat × Rat × String) :=
  t.map (fun r => (r.User_Score, r.Critic_Score, r.Genre))

/-- Everything the callback returns, with chart data kept as the
aggregated tables feeding the figures. -/
structure AggregationResult where
  totalCount : Nat
  avgUser : Option Rat
  avgCritic : Option Rat
  byYearPlatform : List ((String × Int) × Nat)
  scatter : List (Rat × Rat × String)
  genreRatings : List (String × List String)
deriving DecidableEq, Repr

/-- Aggregation of a (filtered) table: the six outputs of the
callback (source lines 184, 197-209, 222-229). -/
def aggregate (t : List GameRecord) : AggregationResult :=
  { totalCount := distinctCount (t.map (·.Name))
    avgUser := (seriesMean (t.map (·.User_Score))).map round2
    avgCritic := (seriesMean (t.map (·.Critic_Score))).map round2
    byYearPlatform := yearPlatformTable t
    scatter := scatterTable t
    genreRatings := genreModeTable t }

/-- The whole callback body as a function of base table and
selection. -/
def engine (base : List GameRecord) (s : FilterSelection) : AggregationResult :=
  aggregate (filteredSubset base s)

/--
Year restriction computed on the subset ITSELF: keep a row iff its own
`Year_of_Release` is in range.  This is the spec's reading of step 4
("the correct behavior restricts the already-filtered subset"); it is
compared with `yearStep`, whose mask is built over the base table.
-/
def yearStepOwn (years : Option (Int × Int)) (t : List (Nat × GameRecord)) :
    List (Nat × GameRecord) :=
  match years with
  | none => t
  | some yr =>
      t.filter (fun p =>
        decide (yr.1 ≤ p.2.Year_of_Release) && decide (p.2.Year_of_Release ≤ yr.2))

/--
The spec's sequential filter on plain rows: restrict by platform, then
by genre, then by year, each stage reading only the rows it is given
(spec 4.2 steps 1-4 as the claims state them).
-/
def seqFilter (base : List GameRecord) (s : FilterSelection) : List GameRecord :=
  let t1 := if s.platforms.length = 0 then base
    else base.filter (fun r => s.platforms.contains r.Platform)
  let t2 := if s.genres.length = 0 then t1
    else t1.filter (fun r => s.genres.contains r.Genre)
  match s.years with
  | none => t2
  | some yr =>
      t2.filter (fun r =>
        decide (yr.1 ≤ r.Year_of_Release) && decide (r.Year_of_Release ≤ yr.2))

/-- `Series.min()` of an integer column (null on an empty column). -/
def seriesMin : List Int → Option Int
  | [] => none
  | x :: xs =>
      match seriesMin xs with
      | none => some x
      | some m => some (min x m)

/-- `Series.max()` of an integer column (null on an empty column). -/
def seriesMax : List Int → Option Int
  | [] => none
  | x :: xs =>
      match seriesMax xs with
      | none => some x
      | some m => some (max x m)

/-- The process state: the module-level `df`. -/
structure DashState where
  base : List GameRecord
deriving DecidableEq, Repr

/-- One callback invocation as a state transformer: it works on
`df.copy()` and leaves `df` itself untouched. -/
def callbackStep (st : DashState) (s : FilterSelection) :
    DashState × AggregationResult :=
  let local_df := st.base
  (st, aggregate ((yearStep local_df s.years
    (genreStep s.genres (platformStep s.platforms (indexedBase local_df)))).map Prod.snd))

/-- A sequence of user interactions. -/
def runInteractions (st : DashState) : List FilterSelection → DashState
  | [] => st
  | s :: rest => runInteractions (callbackStep st s).1 rest

/-! Concrete tables used to instantiate the universally quantified
theorems below on explicit inputs. -/

/-- Spec 8 example row A. -/
def rowA : GameRecord := ⟨"A", "PS4", "Action", 2010, 80, 15 / 2, "E"⟩

/-- Spec 8 example row B. -/
def rowB : GameRecord := ⟨"B", "PC", "RPG", 2015, 90, 8, "M"⟩

/-- Spec 8 example base table. -/
def exBase : List GameRecord := [rowA, rowB]

/-- Spec 8 example selection: PS4 only, all genres, years 2000-2022. -/
def exSel : FilterSelection := ⟨["PS4"], [], some (2000, 2022)⟩

/-- Selection whose year range [2020, 2022] matches no row of
`exBase`. -/
def exSelEmpty : FilterSelection := ⟨[], [], some (2020, 2022)⟩

/-- Two same-genre rows whose ratings tie in frequency. -/
def tieBase : List GameRecord :=
  [⟨"G1", "PS4", "Action", 2010, 80, 7, "E"⟩,
   ⟨"G2", "PS4", "Action", 2011, 81, 8, "M"⟩]

/-- The no-restriction selection used with `tieBase`. -/
def tieSel : FilterSelection := ⟨[], [], some (2000, 2022)⟩

/-- A raw table exercising every drop rule of the loader: one fully
valid row, one with a missing field, one with a non-numeric score, one
outside the year window. -/
def exRaw : List RawRecord :=
  [⟨some "A", some "PS4", some "Action", some 2010, some (Sum.inl 80),
      some (Sum.inl (15 / 2)), some "E"⟩,
   ⟨some "B", none, some "RPG", some 2015, some (Sum.inl 90),
      some (Sum.inl 8), some "M"⟩,
   ⟨some "C", some "PC", some "Sports", some 2012, some (Sum.inl 70),
      some (Sum.inr "tbd"), some "E"⟩,
   ⟨some "D", some "PC", some "Misc", some 1998, some (Sum.inl 60),
      some (Sum.inl 6), some "T"⟩]

/-! ### Helper lemmas -/

theorem indexedFrom_get {l : List GameRecord} {p : Nat × GameRecord} :
    ∀ {i : Nat}, p ∈ indexedFrom i l → i ≤ p.1 ∧ l.get? (p.1 - i) = some p.2 := by
  induction l with
  | nil => intro i h; simp [indexedFrom] at h
  | cons r rs ih =>
    intro i h
    rw [indexedFrom, List.mem_cons] at h
    rcases h with h | h
    · subst h; simp
    · obtain ⟨hle, hget⟩ := ih h
      refine ⟨by omega, ?_⟩
      have hstep : p.1 - i = (p.1 - (i + 1)) + 1 := by omega
      rw [hstep]
      simpa using hget

theorem mem_indexedBase {b : List GameRecord} {p : Nat × GameRecord}
    (h : p ∈ indexedBase b) : b.get? p.1 = some p.2 := by
  have h2 := indexedFrom_get (i := 0) h
  simpa using h2.2

theorem mem_of_platformStep {l : List String} {t : List (Nat × GameRecord)}
    {p : Nat × GameRecord} (h : p ∈ platformStep l t) : p ∈ t := by
  unfold platformStep at h
  split at h
  · exact h
  · exact (List.mem_filter.mp h).1

theorem mem_of_genreStep {l : List String} {t : List (Nat × GameRecord)}
    {p : Nat × GameRecord} (h : p ∈ genreStep l t) : p ∈ t := by
  unfold genreStep at h
  split at h
  · exact h
  · exact (List.mem_filter.mp h).1

theorem pg_consistent {b : List GameRecord} {pl ge : List String} :
    ∀ p ∈ genreStep ge (platformStep pl (indexedBase b)), b.get? p.1 = some p.2 :=
  fun _ hp => mem_indexedBase (mem_of_platformStep (mem_of_genreStep hp))

theorem yearStep_eq_own {b : List GameRecord} {y : Option (Int × Int)}
    {t : List (Nat × GameRecord)} (h : ∀ p ∈ t, b.get? p.1 = some p.2) :
    yearStep b y t = yearStepOwn y t := by
  unfold yearStep yearStepOwn
  cases y with
  | none => rfl
  | some yr =>
    apply List.filter_congr
    intro p hp
    rw [h p hp]

theorem map_snd_indexedFrom (l : List GameRecord) :
    ∀ i : Nat, (indexedFrom i l).map Prod.snd = l := by
  induction l with
  | nil => intro i; rfl
  | cons r rs ih => intro i; simp [indexedFrom, ih]

theorem map_snd_indexedBase (b : List GameRecord) :
    (indexedBase b).map Prod.snd = b :=
  map_snd_indexedFrom b 0

theorem map_snd_filter (q : GameRecord → Bool) (t : List (Nat × GameRecord)) :
    (t.filter (fun p => q p.2)).map Prod.snd = (t.map Prod.snd).filter q := by
  induction t with
  | nil => rfl
  | cons p ps ih =>
    by_cases h : q p.2 <;> simp [List.filter_cons, h, ih]

theorem mem_insortBy {α : Type} (f : α → α → Bool) (x y : α) :
    ∀ l : List α, (y ∈ insortBy f x l ↔ y = x ∨ y ∈ l) := by
  intro l
  induction l with
  | nil => simp [insortBy]
  | cons a as ih =>
    rw [insortBy]
    split
    · simp [List.mem_cons]
    · rw [List.mem_cons, List.mem_cons, ih]
      tauto

theorem mem_sortBy {α : Type} (f : α → α → Bool) (y : α) :
    ∀ l : List α, (y ∈ sortBy f l ↔ y ∈ l) := by
  intro l
  induction l with
  | nil => simp [sortBy]
  | cons a as ih =>
    rw [sortBy, mem_insortBy, ih, List.mem_cons]

theorem seriesMin_le {l : List Int} :
    ∀ {m : Int}, seriesMin l = some m → ∀ y ∈ l, m ≤ y := by
  induction l with
  | nil => intro m h; simp [seriesMin] at h
  | cons x xs ih =>
    intro m h y hy
    rw [seriesMin] at h
    rcases List.mem_cons.mp hy with rfl | hy'
    · cases hsx : seriesMin xs <;> rw [hsx] at h <;> injection h with h <;> subst h
      · exact le_refl y
      · exact min_le_left _ _
    · cases hsx : seriesMin xs with
      | none =>
        cases xs with
        | nil => simp at hy'
        | cons a as => rw [seriesMin] at hsx; split at hsx <;> simp at hsx
      | some k =>
        rw [hsx] at h; injection h with h; subst h
        exact le_trans (min_le_right x k) (ih hsx y hy')

theorem seriesMax_ge {l : List Int} :
    ∀ {m : Int}, seriesMax l = some m → ∀ y ∈ l, y ≤ m := by
  induction l with
  | nil => intro m h; simp [seriesMax] at h
  | cons x xs ih =>
    intro m h y hy
    rw [seriesMax] at h
    rcases List.mem_cons.mp hy with rfl | hy'
    · cases hsx : seriesMax xs <;> rw [hsx] at h <;> injection h with h <;> subst h
      · exact le_refl y
      · exact le_max_left _ _
    · cases hsx : seriesMax xs with
      | none =>
        cases xs with
        | nil => simp at hy'
        | cons a as => rw [seriesMax] at hsx; split at hsx <;> simp at hsx
      | some k =>
        rw [hsx] at h; injection h with h; subst h
        exact le_trans (ih hsx y hy') (le_max_right x k)

theorem map_snd_platformStep (l : List String) (t : List (Nat × GameRecord)) :
    (platformStep l t).map Prod.snd =
      if l.length = 0 then t.map Prod.snd
      else (t.map Prod.snd).filter (fun r => l.contains r.Platform) := by
  unfold platformStep
  by_cases h : l.length = 0
  · simp [h]
  · rw [if_neg h, if_neg h]
    exact map_snd_filter (fun r => l.contains r.Platform) t

theorem map_snd_genreStep (l : List String) (t : List (Nat × GameRecord)) :
    (genreStep l t).map Prod.snd =
      if l.length = 0 then t.map Prod.snd
      else (t.map Prod.snd).filter (fun r => l.contains r.Genre) := by
  unfold genreStep
  by_cases h : l.length = 0
  · simp [h]
  · rw [if_neg h, if_neg h]
    exact map_snd_filter (fun r => l.contains r.Genre) t

theorem map_snd_yearStepOwn (y : Option (Int × Int)) (t : List (Nat × GameRecord)) :
    (yearStepOwn y t).map Prod.snd =
      match y with
      | none => t.map Prod.snd
      | some yr => (t.map Prod.snd).filter
          (fun r => decide (yr.1 ≤ r.Year_of_Release) && decide (r.Year_of_Release ≤ yr.2)) := by
  cases y with
  | none => rfl
  | some yr =>
    exact map_snd_filter
      (fun r => decide (yr.1 ≤ r.Year_of_Release) && decide (r.Year_of_Release ≤ yr.2)) t

/-- C10: applying the year mask computed over the full base table to the
platform/genre-filtered subset selects exactly the rows the subset's own
year values select, for every base table and selection. -/
theorem year_mask_alignment (b : List GameRecord) (s : FilterSelection) :
    filteredIndexed b s =
      yearStepOwn s.years (genreStep s.genres (platformStep s.platforms (indexedBase b))) := by
  unfold filteredIndexed
  exact yearStep_eq_own pg_consistent

/-- C1: when a year range is supplied, the engine's filtered subset equals
the base table restricted by platform, then by genre, then by year, the
year bound applied to the already platform/genre-filtered intermediate. -/
theorem filteredSubset_eq_seqFilter (b : List GameRecord) (s : FilterSelection)
    (lo hi : Int) (h : s.years = some (lo, hi)) :
    filteredSubset b s = seqFilter b s := by
  obtain ⟨pl, ge, y⟩ := s
  simp only at h
  subst h
  unfold filteredSubset filteredIndexed seqFilter
  rw [yearStep_eq_own pg_consistent, map_snd_yearStepOwn, map_snd_genreStep,
    map_snd_platformStep, map_snd_indexedBase]

/-- Witness for C1 at the spec-8 example table and selection. -/
theorem filteredSubset_eq_seqFilter_witness :
    filteredSubset exBase exSel = seqFilter exBase exSel :=
  filteredSubset_eq_seqFilter exBase exSel 2000 2022 rfl

theorem finalize_year {r : RawRecord} {g : GameRecord}
    (hf : finalizeRow r = some g) (hy : yearInWindow r = true) :
    2000 ≤ g.Year_of_Release ∧ g.Year_of_Release ≤ 2022 := by
  unfold finalizeRow at hf
  unfold yearInWindow at hy
  split at hf
  · rename_i n p gn y c u rt h1 h2 h3 h4 h5 h6 h7
    injection hf with hf
    subst hf
    rw [h4] at hy
    simp at hy
    exact ⟨hy.1, hy.2⟩
  · simp at hf

/-- C2: every row of the loaded base table has its release year in
[2000, 2022] and originates from a raw row that is fully non-null with
numerically coercible scores; offending rows are dropped (the loader is
total), never an error. -/
theorem load_invariant (l : List RawRecord) (g : GameRecord) (h : g ∈ load l) :
    (2000 ≤ g.Year_of_Release ∧ g.Year_of_Release ≤ 2022) ∧
    ∃ r ∈ l, rowNonNull r ∧ scoresNumeric r ∧ yearInWindow r ∧ finalizeRow r = some g := by
  unfold load at h
  obtain ⟨r, hr, hfin⟩ := List.mem_filterMap.mp h
  obtain ⟨hr2, hyw⟩ := List.mem_filter.mp hr
  obtain ⟨hr1, hsn⟩ := List.mem_filter.mp hr2
  obtain ⟨hr0, hnn⟩ := List.mem_filter.mp hr1
  exact ⟨finalize_year hfin hyw, r, hr0, hnn, hsn, hyw, hfin⟩

/-- Witness for C2: the surviving row of the mixed raw table `exRaw`. -/
theorem load_invariant_witness :
    (2000 ≤ rowA.Year_of_Release ∧ rowA.Year_of_Release ≤ 2022) ∧
    ∃ r ∈ exRaw, rowNonNull r ∧ scoresNumeric r ∧ yearInWindow r ∧ finalizeRow r = some rowA :=
  load_invariant exRaw rowA
    (by rw [show load exRaw = [rowA] from rfl]; exact List.mem_singleton_self rowA)

/-- C3: the three scalar outputs are the number of distinct names, and
the user/critic score means over the filtered subset rounded to two
decimal places. -/
theorem engine_scalars (b : List GameRecord) (s : FilterSelection)
    (h : filteredSubset b s ≠ []) :
    (engine b s).totalCount = ((filteredSubset b s).map (fun r => r.Name)).toFinset.card ∧
    (engine b s).avgUser =
      some (round2 (ratSum ((filteredSubset b s).map (fun r => r.User_Score)) /
        ((filteredSubset b s).length : Rat))) ∧
    (engine b s).avgCritic =
      some (round2 (ratSum ((filteredSubset b s).map (fun r => r.Critic_Score)) /
        ((filteredSubset b s).length : Rat))) := by
  have hlen : (filteredSubset b s).length ≠ 0 := by
    simpa [List.length_eq_zero] using h
  unfold engine aggregate
  refine ⟨?_, ?_, ?_⟩
  · simp [distinctCount, List.card_toFinset]
  · simp [seriesMean, List.length_map, hlen]
  · simp [seriesMean, List.length_map, hlen]

/-- Witness for C3 at the spec-8 example. -/
theorem engine_scalars_witness :
    (engine exBase exSel).totalCount =
      ((filteredSubset exBase exSel).map (fun r => r.Name)).toFinset.card ∧
    (engine exBase exSel).avgUser =
      some (round2 (ratSum ((filteredSubset exBase exSel).map (fun r => r.User_Score)) /
        ((filteredSubset exBase exSel).length : Rat))) ∧
    (engine exBase exSel).avgCritic =
      some (round2 (ratSum ((filteredSubset exBase exSel).map (fun r => r.Critic_Score)) /
        ((filteredSubset exBase exSel).length : Rat))) :=
  engine_scalars exBase exSel (by decide)

/-- C4: the empty selection (no platforms, no genres, the full
[min, max] year span) aggregates the entire base table. -/
theorem engine_empty_selection (b : List GameRecord) (lo hi : Int)
    (h1 : seriesMin (b.map (fun r => r.Year_of_Release)) = some lo)
    (h2 : seriesMax (b.map (fun r => r.Year_of_Release)) = some hi) :
    engine b ⟨[], [], some (lo, hi)⟩ = aggregate b := by
  unfold engine
  congr 1
  unfold filteredSubset filteredIndexed
  rw [yearStep_eq_own pg_consistent]
  have hpg : genreStep [] (platformStep [] (indexedBase b)) = indexedBase b := rfl
  rw [hpg]
  have hall : ∀ p ∈ indexedBase b,
      (decide (lo ≤ p.2.Year_of_Release) && decide (p.2.Year_of_Release ≤ hi)) = true := by
    intro p hp
    have hmem : p.2 ∈ b := List.get?_mem (mem_indexedBase hp)
    have hy : p.2.Year_of_Release ∈ b.map (fun r => r.Year_of_Release) :=
      List.mem_map.mpr ⟨p.2, hmem, rfl⟩
    simp [seriesMin_le h1 _ hy, seriesMax_ge h2 _ hy]
  simp only [yearStepOwn]
  rw [List.filter_eq_self.mpr hall, map_snd_indexedBase]

/-- Witness for C4 at the spec-8 example table. -/
theorem engine_empty_selection_witness :
    engine exBase ⟨[], [], some (2010, 2015)⟩ = aggregate exBase :=
  engine_empty_selection exBase 2010 2015 (by decide) (by decide)

/-- C5: a non-empty platform selection only ever restricts: the filtered
rows form a sublist of the all-platforms result, so its row count is at
most the all-platforms row count. -/
theorem platform_filter_monotone (b : List GameRecord) (pl ge : List String)
    (y : Option (Int × Int)) (h : pl ≠ []) :
    List.Sublist (filteredIndexed b ⟨pl, ge, y⟩) (filteredIndexed b ⟨[], ge, y⟩) ∧
    (filteredSubset b ⟨pl, ge, y⟩).length ≤ (filteredSubset b ⟨[], ge, y⟩).length := by
  have h1 : List.Sublist (platformStep pl (indexedBase b)) (platformStep [] (indexedBase b)) := by
    unfold platformStep
    split
    · exact List.Sublist.refl _
    · exact List.filter_sublist _
  have h2 : List.Sublist (genreStep ge (platformStep pl (indexedBase b)))
      (genreStep ge (platformStep [] (indexedBase b))) := by
    unfold genreStep
    split
    · exact h1
    · exact h1.filter _
  have h3 : List.Sublist (yearStep b y (genreStep ge (platformStep pl (indexedBase b))))
      (yearStep b y (genreStep ge (platformStep [] (indexedBase b)))) := by
    unfold yearStep
    cases y with
    | none => exact h2
    | some yr => exact h2.filter _
  refine ⟨h3, ?_⟩
  unfold filteredSubset
  rw [List.length_map, List.length_map]
  exact h3.length_le

/-- Witness for C5 at the spec-8 example. -/
theorem platform_filter_monotone_witness :
    List.Sublist (filteredIndexed exBase ⟨["PS4"], [], some (2000, 2022)⟩)
      (filteredIndexed exBase ⟨[], [], some (2000, 2022)⟩) ∧
    (filteredSubset exBase ⟨["PS4"], [], some (2000, 2022)⟩).length ≤
      (filteredSubset exBase ⟨[], [], some (2000, 2022)⟩).length :=
  platform_filter_monotone exBase ["PS4"] [] (some (2000, 2022)) (by decide)

/-- C6: when the filters match no rows the engine returns count 0 and
the defined null sentinel (modelling NaN) for both means, with no
failure. -/
theorem engine_empty_result (b : List GameRecord) (s : FilterSelection)
    (h : filteredSubset b s = []) :
    (engine b s).totalCount = 0 ∧ (engine b s).avgUser = none ∧
    (engine b s).avgCritic = none := by
  unfold engine aggregate
  rw [h]
  exact ⟨rfl, rfl, rfl⟩

/-- Witness for C6: year range [2020, 2022] matches no row of `exBase`. -/
theorem engine_empty_result_witness :
    (engine exBase exSelEmpty).totalCount = 0 ∧
    (engine exBase exSelEmpty).avgUser = none ∧
    (engine exBase exSelEmpty).avgCritic = none :=
  engine_empty_result exBase exSelEmpty rfl

theorem mem_seriesMode {l : List String} {v : String} :
    v ∈ seriesMode l ↔ v ∈ l ∧ l.count v = maxFreq l := by
  unfold seriesMode
  rw [mem_sortBy, List.mem_filter, List.mem_dedup]
  simp

theorem tie_genreRatings_eval :
    (engine tieBase tieSel).genreRatings = [("Action", ["E", "M"])] := by
  have hsub : filteredSubset tieBase tieSel = tieBase := rfl
  have hk : genreKeys tieBase = ["Action"] := by decide
  have hg : groupRatings tieBase "Action" = ["E", "M"] := by decide
  have hfil : (["E", "M"] : List String).dedup.filter
      (fun v => decide ((["E", "M"] : List String).count v = maxFreq ["E", "M"])) =
        ["E", "M"] := by decide
  have hle : strLe "E" "M" = true := by simp [strLe]; decide
  have hm : seriesMode ["E", "M"] = ["E", "M"] := by
    unfold seriesMode
    rw [hfil]
    simp [sortBy, insortBy, hle]
  simp only [engine, aggregate]
  rw [hsub]
  unfold genreModeTable
  rw [hk, List.map_singleton, hg, hm]

/-- C7 counterexample: with two equally frequent ratings in a genre the
per-genre table holds BOTH values, not a single most-frequent one. -/
theorem genre_mode_counterexample :
    (engine tieBase tieSel).genreRatings = [("Action", ["E", "M"])] ∧
    ¬ ∃ v : String, (engine tieBase tieSel).genreRatings = [("Action", [v])] := by
  refine ⟨tie_genreRatings_eval, ?_⟩
  rintro ⟨v, hv⟩
  rw [tie_genreRatings_eval] at hv
  simp at hv

/-- C7 amended: the per-genre table maps each genre of the filtered
subset to exactly the Rating values of maximal frequency in that
genre's rows (the single mode when it is unique). -/
theorem genre_mode_characterization (b : List GameRecord) (s : FilterSelection)
    (g : String) (ms : List String) (v : String)
    (h : (g, ms) ∈ (engine b s).genreRatings) :
    v ∈ ms ↔ v ∈ groupRatings (filteredSubset b s) g ∧
      (groupRatings (filteredSubset b s) g).count v =
        maxFreq (groupRatings (filteredSubset b s) g) := by
  unfold engine aggregate genreModeTable at h
  obtain ⟨g', hg', heq⟩ := List.mem_map.mp h
  cases heq
  exact mem_seriesMode

/-- Witness for C7's amended theorem on the tie table. -/
theorem genre_mode_characterization_witness :
    "E" ∈ (["E", "M"] : List String) ↔
      "E" ∈ groupRatings (filteredSubset tieBase tieSel) "Action" ∧
      (groupRatings (filteredSubset tieBase tieSel) "Action").count "E" =
        maxFreq (groupRatings (filteredSubset tieBase tieSel) "Action") :=
  genre_mode_characterization tieBase tieSel "Action" ["E", "M"] "E"
    (by rw [tie_genreRatings_eval]; exact List.mem_singleton_self _)

/-- C8: the spec-8 two-row example: selecting PS4 over 2000-2022 yields
count 1, mean user score 7.5, mean critic score 80. -/
theorem engine_example_ps4 :
    (engine exBase exSel).totalCount = 1 ∧
    (engine exBase exSel).avgUser = some (15 / 2) ∧
    (engine exBase exSel).avgCritic = some 80 := by
  refine ⟨by decide, ?_, ?_⟩ <;>
    norm_num [engine, aggregate, filteredSubset, filteredIndexed, indexedBase, indexedFrom,
      platformStep, genreStep, yearStep, seriesMean, ratSum, round2, roundHalfEven,
      exBase, exSel, rowA, rowB, List.filter]

/-- C9: a callback invocation never mutates the base table and its
result is the pure function of (base table, selection); any sequence of
interactions leaves the base table as loaded. -/
theorem callback_pure (st : DashState) (s : FilterSelection)
    (l : List FilterSelection) :
    (callbackStep st s).1 = st ∧ (callbackStep st s).2 = engine st.base s ∧
    (runInteractions st l).base = st.base := by
  refine ⟨rfl, rfl, ?_⟩
  induction l generalizing st with
  | nil => rfl
  | cons a as ih => exact ih st

end GamesDash
